import Mathlib

/-!
Verification development for the AI Email Assistant frontend
(src/frontend/src, TypeScript). The client-side job-tracking reducer,
polling loops, response data model and client statistics are embedded
from the source; the backend job registry and response generation
engine, described by the design document but absent from the sources,
are modelled from the spec where a claim requires them.
-/

/- ===================================================================
   Section 1: client task-tracking state (src/frontend/src/services/api.ts,
   AppContext part: TaskStatus, Notification, AppState, appReducer).
   =================================================================== -/

/-- TaskStatus interface from api.ts (result typed `any` in the source is
embedded as an optional string payload). -/
structure TaskStatus where
  task_id : String
  status : String
  result : Option String := none
  error : Option String := none
  date_done : Option String := none
  successful : Option Bool := none
deriving DecidableEq, Repr

/-- Notification record from AppContext.  The reducer fills `id` with a
random string and `timestamp` with the current clock; both enter the
embedding as oracle inputs carried on the action. -/
structure Notification where
  id : String
  ntype : String
  title : String
  message : String
  timestamp : Int
  read : Bool
deriving DecidableEq, Repr

/-- The slice of AppState that the task and notification actions read or
write.  The remaining AppState fields (emails, responses, clients, system
health, UI flags) are touched only by the reducer cases omitted here,
none of which reads or writes these three fields. -/
structure AppState where
  activeTasks : List (String × TaskStatus)
  taskHistory : List TaskStatus
  notifications : List Notification
deriving DecidableEq, Repr

/-- JS Map.set: replace in place when the key is present, append otherwise. -/
def mapSet (m : List (String × TaskStatus)) (k : String) (v : TaskStatus) :
    List (String × TaskStatus) :=
  if (List.lookup k m).isSome then
    m.map (fun p => if p.1 = k then (k, v) else p)
  else m ++ [(k, v)]

/-- JS Map.delete. -/
def mapDelete (m : List (String × TaskStatus)) (k : String) :
    List (String × TaskStatus) :=
  m.filter (fun p => p.1 != k)

/-- Task/notification actions of the AppContext reducer.  ADD_NOTIFICATION
carries the reducer-generated id and timestamp as oracle inputs. -/
inductive AppAction where
  | ADD_TASK (p : TaskStatus)
  | UPDATE_TASK (p : TaskStatus)
  | REMOVE_TASK (id : String)
  | CLEAR_COMPLETED_TASKS
  | ADD_NOTIFICATION (id : String) (timestamp : Int) (ntype title message : String)
  | MARK_NOTIFICATION_READ (id : String)
  | CLEAR_NOTIFICATIONS
deriving DecidableEq, Repr

/-- appReducer from AppContext (task and notification cases).  UPDATE_TASK
first sets the entry, then on a terminal status ('SUCCESS'/'FAILURE')
prepends the payload to taskHistory keeping the last 50 (slice(0, 49))
and deletes the entry from activeTasks.  ADD_NOTIFICATION keeps the last
100 notifications (slice(0, 99)) and stores read := false. -/
def appReducer (s : AppState) (a : AppAction) : AppState :=
  match a with
  | .ADD_TASK p =>
      { s with activeTasks := mapSet s.activeTasks p.task_id p }
  | .UPDATE_TASK p =>
      let updatedTasks := mapSet s.activeTasks p.task_id p
      if p.status = "SUCCESS" ∨ p.status = "FAILURE" then
        { s with activeTasks := mapDelete updatedTasks p.task_id,
                 taskHistory := p :: s.taskHistory.take 49 }
      else
        { s with activeTasks := updatedTasks }
  | .REMOVE_TASK id =>
      { s with activeTasks := mapDelete s.activeTasks id }
  | .CLEAR_COMPLETED_TASKS =>
      { s with taskHistory := [] }
  | .ADD_NOTIFICATION id ts ntype title message =>
      { s with notifications :=
          { id := id, ntype := ntype, title := title, message := message,
            timestamp := ts, read := false } :: s.notifications.take 99 }
  | .MARK_NOTIFICATION_READ id =>
      { s with notifications := s.notifications.map (fun n => if n.id = id then { n with read := true } else n) }
  | .CLEAR_NOTIFICATIONS =>
      { s with notifications := [] }

/-- The initialState of AppContext, restricted to the embedded fields. -/
def initialState : AppState :=
  { activeTasks := [], taskHistory := [], notifications := [] }

/-- Apply a sequence of dispatched actions. -/
def applyActions (s : AppState) (acts : List AppAction) : AppState :=
  acts.foldl appReducer s

/-- The status under which a job is currently observed in the active task
map (what useTasks exposes as activeTasks). -/
def observedActive (s : AppState) (t : String) : Option String :=
  (List.lookup t s.activeTasks).map (fun p => p.status)

/-- Whether a terminal outcome for job `t` has been recorded in the task
history (only 'SUCCESS'/'FAILURE' payloads are ever put there). -/
def recordedTerminal (s : AppState) (t : String) : Bool :=
  s.taskHistory.any (fun p => p.task_id == t && (p.status == "SUCCESS" || p.status == "FAILURE"))

/-- The stored outcome for job `t`: the status of the most recent history
entry for `t` (taskHistory is newest-first). -/
def storedOutcome (s : AppState) (t : String) : Option String :=
  (s.taskHistory.find? (fun p => p.task_id == t)).map (fun p => p.status)

/-- Whether an action writes an entry for job `t` into the active task map. -/
def targetsTask (a : AppAction) (t : String) : Bool :=
  match a with
  | .ADD_TASK p => p.task_id == t
  | .UPDATE_TASK p => p.task_id == t
  | _ => false

/- ===================================================================
   Section 2: caller-side polling loops
   (src/frontend/src/hooks/useResponses.ts useGenerateResponse.pollTask,
    src/frontend/src/hooks/useEmails.ts useAnalyzeEmail.pollTask,
    src/frontend/src/services/api.ts ApiService.streamTaskUpdates).
   A poll observation is `some status` when getTaskStatus resolves and
   `none` when it throws (network error / NotFound), which the loops
   handle in their catch branches.
   =================================================================== -/

/-- Notifications emitted by AppContext.updateTaskStatus, which every poll
iteration calls first: 'Task Completed' on SUCCESS, 'Task Failed' on
FAILURE, nothing otherwise. -/
def updateTaskStatusNotices (p : TaskStatus) : List String :=
  if p.status = "SUCCESS" then ["Task Completed"]
  else if p.status = "FAILURE" then ["Task Failed"]
  else []

/-- Outcome of one iteration of a hook-level pollTask loop: whether another
poll is scheduled (setTimeout(pollTask, 2000)) and the titles of the
notifications the iteration emits. -/
structure PollIteration where
  continues : Bool
  notices : List String
deriving DecidableEq, Repr

/-- One iteration of useGenerateResponse.pollTask: on SUCCESS notify
success and stop; on PENDING/STARTED schedule another poll; on FAILURE
notify failure and stop; on any other status fall through and stop; the
catch branch (poll error) only logs to the console and stops. -/
def generatePollIteration (r : Option TaskStatus) : PollIteration :=
  match r with
  | none => { continues := false, notices := [] }
  | some p =>
      let base := updateTaskStatusNotices p
      if p.status = "SUCCESS" then
        { continues := false, notices := base ++ ["Response generated"] }
      else if p.status = "PENDING" ∨ p.status = "STARTED" then
        { continues := true, notices := base }
      else if p.status = "FAILURE" then
        { continues := false, notices := base ++ ["Response generation failed"] }
      else
        { continues := false, notices := base }

/-- One iteration of useAnalyzeEmail.pollTask: on SUCCESS it only
invalidates query caches (no notification of its own); on PENDING/STARTED
it schedules another poll; every other status and the catch branch stop. -/
def analyzePollIteration (r : Option TaskStatus) : PollIteration :=
  match r with
  | none => { continues := false, notices := [] }
  | some p =>
      let base := updateTaskStatusNotices p
      if p.status = "SUCCESS" then
        { continues := false, notices := base }
      else if p.status = "PENDING" ∨ p.status = "STARTED" then
        { continues := true, notices := base }
      else
        { continues := false, notices := base }

/-- One tick of ApiService.streamTaskUpdates: the interval is cleared only
when the reported status is 'SUCCESS' or 'FAILURE', or when getTaskStatus
throws; `true` means the interval keeps polling. -/
def streamContinues (r : Option TaskStatus) : Bool :=
  match r with
  | none => false
  | some p => !(p.status == "SUCCESS" || p.status == "FAILURE")

/-- Terminal statuses of the job state machine, in the status strings the
client compares against: SUCCESS, FAILURE, and REVOKED (the status a
cancelled task reports after ApiService.cancelTask). -/
def isTerminalStatus (s : String) : Bool :=
  s == "SUCCESS" || s == "FAILURE" || s == "REVOKED"

/- ===================================================================
   Section 3: GeneratedResponse data model and its Dashboard rendering
   (src/frontend/src/services/api.ts lines 60-71,
    src/frontend/src/components/Dashboard.tsx lines 148-152).
   =================================================================== -/

/-- GeneratedResponse interface from api.ts.  Scores are JS numbers or
null, embedded as optional rationals. -/
structure GeneratedResponse where
  id : String
  original_email_id : String
  generated_response : String
  response_type : String
  confidence_score : Option ℚ
  relevance_score : Option ℚ
  style_match_score : Option ℚ
  model_used : Option String
  status : String
  created_at : String
deriving DecidableEq, Repr

/-- The four generation strategies of the design document. -/
def strategyKinds : List String := ["RAG", "Rule", "Hybrid", "Template"]

/-- JS Math.round: round half towards positive infinity. -/
def jsRound (x : ℚ) : ℤ := Int.floor (x + 1 / 2)

/-- Dashboard confidence badge: Math.round((response.confidence_score || 0) * 100). -/
def dashboardConfidencePct (r : GeneratedResponse) : ℤ :=
  jsRound ((r.confidence_score.getD 0) * 100)

/-- A well-typed response value exactly as the client data model admits
it: null confidence_score, and a response_type ('professional') that
Dashboard.tsx itself branches on. -/
def nullConfidenceResponse : GeneratedResponse :=
  { id := "resp-1", original_email_id := "email-1",
    generated_response := "Dobry den, dekuji za Vasi zpravu.",
    response_type := "professional",
    confidence_score := none, relevance_score := none,
    style_match_score := none, model_used := none,
    status := "pending", created_at := "2024-01-01T00:00:00Z" }

/- ===================================================================
   Section 4: client statistics (src/frontend/src/hooks/useClients.ts,
   useClientStats).
   =================================================================== -/

/-- Client interface from api.ts.  Date strings are compared through
new Date(s).getTime(); the embedding carries the conversion as the oracle
`parseDate` below and keeps the raw strings here. -/
structure Client where
  id : String
  user_id : String
  email_address : String
  client_name : Option String
  organization_name : Option String
  business_category : Option String
  communication_frequency : Option String
  relationship_strength : Option ℚ
  total_emails_received : Nat
  total_emails_sent : Nat
  first_interaction : Option String
  last_interaction : Option String
  priority_level : String
deriving DecidableEq, Repr

/-- The record useClientStats returns. -/
structure ClientStats where
  totalClients : Nat
  activeClients : Nat
  highPriorityClients : Nat
  averageRelationshipStrength : ℚ
  topBusinessCategories : List (String × Nat)
  recentInteractions : Nat
deriving DecidableEq, Repr

/-- Math.round(x * 100) / 100 from useClientStats. -/
def jsRound2 (x : ℚ) : ℚ := (jsRound (x * 100) : ℚ) / 100

/-- Category counting from useClientStats: a fold over the clients keyed
by business_category, counting occurrences; JS object string keys keep
first-insertion order, which an association list reproduces. -/
def countCategories (clients : List Client) : List (String × Nat) :=
  clients.foldl
    (fun acc c =>
      match c.business_category with
      | none => acc
      | some cat =>
          if (List.lookup cat acc).isSome then
            acc.map (fun p => if p.1 = cat then (p.1, p.2 + 1) else p)
          else acc ++ [(cat, 1)])
    []

/-- Sort (category, count) pairs by count descending; mergeSort is stable,
matching the ES2019+ stable Array.prototype.sort with (a, b) => b - a. -/
def sortByCountDesc (l : List (String × Nat)) : List (String × Nat) :=
  l.mergeSort (fun a b => b.2 ≤ a.2)

/-- useClientStats from useClients.ts.  `now` is the clock read
(new Date()) and `parseDate` the Date-string-to-epoch-milliseconds
conversion, both oracle inputs of the embedding. -/
def useClientStats (now : ℤ) (parseDate : String → ℤ) (clients : List Client) : ClientStats :=
  if clients.isEmpty then
    { totalClients := 0, activeClients := 0, highPriorityClients := 0,
      averageRelationshipStrength := 0, topBusinessCategories := [],
      recentInteractions := 0 }
  else
    let thirtyDaysAgo := now - 30 * 24 * 60 * 60 * 1000
    let sevenDaysAgo := now - 7 * 24 * 60 * 60 * 1000
    let activeClients := clients.filter (fun c =>
      match c.last_interaction with
      | some d => decide (thirtyDaysAgo < parseDate d)
      | none => false)
    let highPriorityClients := clients.filter (fun c => c.priority_level == "high")
    let avgRelationshipStrength :=
      (clients.foldl (fun sum c => sum + c.relationship_strength.getD 0) 0) / (clients.length : ℚ)
    let businessCategories := countCategories clients
    let topBusinessCategories := (sortByCountDesc businessCategories).take 5
    let recentInteractions := clients.filter (fun c =>
      match c.last_interaction with
      | some d => decide (sevenDaysAgo < parseDate d)
      | none => false)
    { totalClients := clients.length,
      activeClients := activeClients.length,
      highPriorityClients := highPriorityClients.length,
      averageRelationshipStrength := jsRound2 avgRelationshipStrength,
      topBusinessCategories := topBusinessCategories,
      recentInteractions := recentInteractions.length }

/-- Two concrete clients used to instantiate the statistics theorem. -/
def demoClients : List Client :=
  [{ id := "c1", user_id := "u1", email_address := "a@x.cz",
     client_name := some "A", organization_name := none,
     business_category := some "legal", communication_frequency := none,
     relationship_strength := some (4 / 5), total_emails_received := 10,
     total_emails_sent := 7, first_interaction := none,
     last_interaction := none, priority_level := "high" },
   { id := "c2", user_id := "u1", email_address := "b@x.cz",
     client_name := none, organization_name := some "B s.r.o.",
     business_category := none, communication_frequency := none,
     relationship_strength := none, total_emails_received := 3,
     total_emails_sent := 1, first_interaction := none,
     last_interaction := none, priority_level := "normal" }]

/- ===================================================================
   Section 5: spec-modelled backend.  The JobRegistry and the
   ResponseGenerationEngine described in the design document run in the
   backend, which is not part of the sources (the frontend only calls
   them through the task/response endpoints); they are modelled here
   from the spec.
   =================================================================== -/

/-- Modelled from the spec: job lifecycle states of the JobRegistry state
machine (spec 4.1); the backend implementation is absent from the sources. -/
inductive JobState where
  | PENDING
  | RUNNING
  | SUCCEEDED
  | FAILED
  | CANCELLED
deriving DecidableEq, Repr

/-- The three right-hand states of the transition graph are terminal. -/
def JobState.isTerminal : JobState → Bool
  | .SUCCEEDED | .FAILED | .CANCELLED => true
  | _ => false

/-- Modelled from the spec: job kinds (spec 3); the backend implementation
is absent from the sources. -/
inductive JobKind where
  | Analyze
  | Vectorize
  | GenerateResponse
  | ProfileUpdate
deriving DecidableEq, Repr

/-- Modelled from the spec: the four generation strategies (spec 4.2);
the engine implementation is absent from the sources. -/
inductive Strategy where
  | RAG
  | Rule
  | Hybrid
  | Template
deriving DecidableEq, Repr

/-- Modelled from the spec: GeneratedDraft (spec 3); the engine
implementation is absent from the sources. -/
structure GeneratedDraft where
  text : String
  strategy : Strategy
  confidence : ℚ
  relevance : Option ℚ
  styleMatch : Option ℚ
  sources : List String
deriving DecidableEq, Repr

/-- Modelled from the spec: a registry-owned job (spec 3): state,
cancellation flag, result payload (terminal success only), error
descriptor (terminal failure only); the backend implementation is absent
from the sources. -/
structure Job where
  kind : JobKind
  state : JobState
  cancelRequested : Bool
  result : Option GeneratedDraft
  error : Option String
deriving DecidableEq, Repr

/-- Modelled from the spec: idempotent finalization — the first terminal
write wins, a finalize on an already-terminal job is a no-op (spec 4.1). -/
def jobFinalize (j : Job) (st : JobState) (res : Option GeneratedDraft) (err : Option String) : Job :=
  if j.state.isTerminal then j
  else { j with state := st, result := res, error := err }

/-- Modelled from the spec: Cancel — a no-op on a terminal job, immediate
PENDING to CANCELLED, and for a running job a cooperative stop signal via
the cancellation flag (spec 4.1, 5). -/
def jobCancel (j : Job) : Job :=
  if j.state.isTerminal then j
  else if j.state = JobState.PENDING then
    { j with state := JobState.CANCELLED, cancelRequested := true }
  else { j with cancelRequested := true }

/-- Modelled from the spec: the worker picks up a PENDING job and moves it
to RUNNING, unless cancellation already intervened (spec 2, 5). -/
def jobStart (j : Job) : Job :=
  if j.state = JobState.PENDING ∧ j.cancelRequested = false then
    { j with state := JobState.RUNNING }
  else j

/-- Modelled from the spec: worker completion under cooperative
cancellation — a worker that observes the cancellation flag aborts,
leaving the job CANCELLED and discarding any produced result; otherwise
it finalizes SUCCEEDED with the result or FAILED with an error
descriptor (spec 4.1, 5, 7). -/
def jobFinish (j : Job) (success : Bool) (res : Option GeneratedDraft) (err : Option String) : Job :=
  if j.cancelRequested then jobFinalize j JobState.CANCELLED none none
  else if success then jobFinalize j JobState.SUCCEEDED res none
  else jobFinalize j JobState.FAILED none err

/-- Operations that can touch a single job after submission: an explicit
cancellation request, the worker start and completion, and a status
poll (side-effect free). -/
inductive JobOp where
  | cancel
  | start
  | finish (success : Bool) (res : Option GeneratedDraft) (err : Option String)
  | poll
deriving DecidableEq, Repr

/-- Apply one operation to a job. -/
def jobStep (j : Job) : JobOp → Job
  | .cancel => jobCancel j
  | .start => jobStart j
  | .finish success res err => jobFinish j success res err
  | .poll => j

/-- Apply a sequence of operations to a job. -/
def applyJobOps (j : Job) (ops : List JobOp) : Job :=
  ops.foldl jobStep j

/-- Modelled from the spec: GetStatus returns the externally observable
job snapshot.  Internally a running worker is stopped cooperatively
(spec 4.1, 5), but the polling contract requires that once cancellation
has been accepted, subsequent polls report CANCELLED, not RUNNING
(spec 4.3) — so the snapshot of a non-terminal job whose cancellation
flag is set reports CANCELLED. -/
def getStatus (j : Job) : JobState :=
  if j.cancelRequested = true ∧ j.state.isTerminal = false then JobState.CANCELLED
  else j.state

/-- Modelled from the spec: the registry's job table with a fresh-id
counter (spec 4.1); the backend implementation is absent from the sources. -/
structure Registry where
  jobs : List (Nat × Job)
  nextId : Nat
deriving DecidableEq, Repr

/-- A freshly submitted job: PENDING, no result, no error, not cancelled. -/
def newJob (k : JobKind) : Job :=
  { kind := k, state := JobState.PENDING, cancelRequested := false,
    result := none, error := none }

/-- Modelled from the spec: Submit(kind, payload) — a well-formed payload
creates the job in PENDING and returns its id without executing any work;
a malformed payload is rejected synchronously with a ValidationError and
no job is created (spec 4.1, 5). -/
def submit (r : Registry) (k : JobKind) (wellFormed : Bool) : Except String (Registry × Nat) :=
  if wellFormed then
    Except.ok ({ jobs := r.jobs ++ [(r.nextId, newJob k)], nextId := r.nextId + 1 }, r.nextId)
  else Except.error "ValidationError"

/-- Events of the submit-then-poll client workflow. -/
inductive PollEv where
  | submitReturn (id : Nat)
  | poll (id : Nat)
deriving DecidableEq, Repr

/-- A bounded run of status polls against a job id. -/
def pollPhase (id : Nat) (n : Nat) : List PollEv :=
  List.replicate n (PollEv.poll id)

/-- The submit-then-poll workflow of useGenerateResponse: the mutation
submits, and only its onSuccess callback — which receives the returned
task id — schedules the polling loop for that id. -/
def generateWorkflow (r : Registry) (k : JobKind) (n : Nat) : List PollEv :=
  match submit r k true with
  | Except.ok (_, id) => PollEv.submitReturn id :: pollPhase id n
  | Except.error _ => []

/-- Modelled from the spec: GenerationRequest (spec 3): source message
fields, optional custom instructions and context budget; the engine
implementation is absent from the sources. -/
structure GenerationRequest where
  sender : String
  subject : String
  body : String
  threadId : String
  customInstructions : Option String := none
  maxContextLength : Option Nat := none
deriving DecidableEq, Repr

/-- Modelled from the spec: one retrieved passage with its similarity
score (spec 3, RetrievedContext). -/
structure Passage where
  text : String
  sourceId : String
  score : ℚ
deriving DecidableEq, Repr

/-- Modelled from the spec: StyleProfile, a precomputed summary of the
user's writing habits; only its formality score is consumed by the
modelled scoring (spec 3, 4.2). -/
structure StyleProfile where
  formality : ℚ
deriving DecidableEq, Repr

/-- Modelled from the spec: ResponseRule — trigger patterns, a response
template with named placeholders, and a fixed per-rule confidence
(pattern-match certainty) (spec 3, 4.2). -/
structure ResponseRule where
  patterns : List String
  template : String
  confidence : ℚ
deriving DecidableEq, Repr

/-- Modelled from the spec: the retrieval similarity threshold (the spec
leaves the constant open; 7/10 follows the 0.7 default of
ApiService.searchVectors). -/
def similarityThreshold : ℚ := 7 / 10

/-- Modelled from the spec: the strategy-acceptance confidence bar (open
constant in the spec). -/
def acceptanceThreshold : ℚ := 7 / 10

/-- Modelled from the spec: the fixed low confidence of the Template
fallback (open constant in the spec). -/
def templateConfidence : ℚ := 3 / 10

/-- Modelled from the spec: the Template fallback draft — a generic
acknowledgment with no context dependency, which by construction never
fails (spec 4.2 strategy 4). -/
def templateDraft : GeneratedDraft :=
  { text := "Thank you for your message. I will review it and get back to you shortly.",
    strategy := Strategy.Template, confidence := templateConfidence,
    relevance := none, styleMatch := none, sources := [] }

/-- Modelled from the spec: quality validation — minimum non-emptiness,
no unresolved template placeholders, and a length bound (spec 4.2). -/
def qualityOk (d : GeneratedDraft) : Bool :=
  d.text != "" && !(d.text.contains '\x7b') && d.text.length ≤ 4000

/-- Modelled from the spec: style-match score, a similarity between the
adapted output and the profile characteristics; the spec fixes no formula
(spec 4.2, 9), so a representative one is used. -/
def styleMatchScore (pr : StyleProfile) : ℚ :=
  max 0 (1 - |pr.formality - 1 / 2|)

/-- Modelled from the spec: draft text composed from the retrieved
passages actually incorporated. -/
def composePassages (req : GenerationRequest) (used : List Passage) : String :=
  "Re: " ++ req.subject ++ " - " ++ String.intercalate " " (used.map (fun p => p.text))

/-- Modelled from the spec: the RAG strategy — unavailable retrieval is a
strategy downgrade, not an error; passages below the similarity threshold
are excluded; relevance is the mean similarity of the passages
incorporated; confidence combines relevance and style match (spec 4.2
strategy 1, 6). -/
def ragAttempt (req : GenerationRequest) (retrieval : Option (List Passage))
    (profile : Option StyleProfile) : Option GeneratedDraft :=
  match retrieval with
  | none => none
  | some ps =>
      let used := ps.filter (fun p => decide (similarityThreshold ≤ p.score))
      if used.isEmpty then none
      else
        let relevance := (used.map (fun p => p.score)).sum / (used.length : ℚ)
        let styleMatch := profile.map styleMatchScore
        some { text := composePassages req used, strategy := Strategy.RAG,
               confidence := (relevance + styleMatch.getD relevance) / 2,
               relevance := some relevance, styleMatch := styleMatch,
               sources := used.map (fun p => p.sourceId) }

/-- Modelled from the spec: whether a rule's trigger patterns match the
inbound message (matcher semantics left open by the spec; word
containment in the body is used). -/
def ruleMatches (req : GenerationRequest) (r : ResponseRule) : Bool :=
  r.patterns.any (fun pat => (req.body.splitOn " ").contains pat)

/-- Modelled from the spec: placeholder substitution from message fields
(spec 4.2 strategy 2). -/
def substituteFields (tmpl : String) (req : GenerationRequest) : String :=
  (tmpl.replace "[sender]" req.sender).replace "[subject]" req.subject

/-- Modelled from the spec: the Rule strategy — scan the RuleSet in
priority order for the first matching rule; confidence is the rule's
fixed certainty; no relevance score (spec 4.2 strategy 2). -/
def ruleAttempt (req : GenerationRequest) (rules : List ResponseRule) : Option GeneratedDraft :=
  match rules.find? (ruleMatches req) with
  | none => none
  | some r =>
      some { text := substituteFields r.template req, strategy := Strategy.Rule,
             confidence := r.confidence, relevance := none, styleMatch := none,
             sources := [] }

/-- Modelled from the spec: the Hybrid strategy — only attempted when RAG
produced some context and a rule matched; merges the rule structure with
retrieved specifics; confidence combines the two contributing scores
(spec 4.2 strategy 3). -/
def hybridAttempt (req : GenerationRequest) (retrieval : Option (List Passage))
    (rules : List ResponseRule) (profile : Option StyleProfile) : Option GeneratedDraft :=
  match ragAttempt req retrieval profile, ruleAttempt req rules with
  | some ragD, some ruleD =>
      some { text := ruleD.text ++ " " ++ ragD.text, strategy := Strategy.Hybrid,
             confidence := (ragD.confidence + ruleD.confidence) / 2,
             relevance := ragD.relevance, styleMatch := ragD.styleMatch,
             sources := ragD.sources }
  | _, _ => none

/-- Modelled from the spec: strategy dispatch as an explicit ordered list
of attempts — RAG, Rule, Hybrid — returning the first that passes quality
validation and clears the acceptance bar, with the Template fallback as
the unconditional strategy of last resort (spec 4.2, 9). -/
def generateDraft (req : GenerationRequest) (retrieval : Option (List Passage))
    (rules : List ResponseRule) (profile : Option StyleProfile) : GeneratedDraft :=
  let attempts := [ragAttempt req retrieval profile, ruleAttempt req rules,
                   hybridAttempt req retrieval rules profile].filterMap id
  match attempts.find? (fun d => qualityOk d && decide (acceptanceThreshold ≤ d.confidence)) with
  | some d => d
  | none => templateDraft

/-- Modelled from the spec: the engine's entry point — the only fatal
error is a malformed request (missing message body), raised synchronously
as a ValidationError (spec 4.2). -/
def generateResponse (req : GenerationRequest) (retrieval : Option (List Passage))
    (rules : List ResponseRule) (profile : Option StyleProfile) : Except String GeneratedDraft :=
  if req.body = "" then Except.error "ValidationError"
  else Except.ok (generateDraft req retrieval rules profile)

/-- Modelled from the spec: the worker wrapper around a GenerateResponse
job — an engine success is recorded as a terminal SUCCEEDED job carrying
the draft, an engine error as terminal FAILED with the descriptor; errors
never escape the wrapper (spec 4.1 failure semantics). -/
def workerExecute (req : GenerationRequest) (retrieval : Option (List Passage))
    (rules : List ResponseRule) (profile : Option StyleProfile) : Job :=
  match generateResponse req retrieval rules profile with
  | Except.ok d =>
      { kind := JobKind.GenerateResponse, state := JobState.SUCCEEDED,
        cancelRequested := false, result := some d, error := none }
  | Except.error e =>
      { kind := JobKind.GenerateResponse, state := JobState.FAILED,
        cancelRequested := false, result := none, error := some e }

/-- A concrete well-formed generation request. -/
def demoRequest : GenerationRequest :=
  { sender := "alice@example.com", subject := "Deadline",
    body := "Can we move the deadline to Friday?", threadId := "thread-1" }

/-- A concrete running job. -/
def demoRunning : Job :=
  { kind := JobKind.GenerateResponse, state := JobState.RUNNING,
    cancelRequested := false, result := none, error := none }

/- ===================================================================
   Helper lemmas about the association-list Map operations.
   =================================================================== -/

theorem lookup_replace_ne (m : List (String × TaskStatus)) (k t : String) (v : TaskStatus)
    (h : t ≠ k) :
    List.lookup t (m.map (fun p => if p.1 = k then (k, v) else p)) = List.lookup t m := by
  induction m with
  | nil => rfl
  | cons p rest ih =>
    obtain ⟨a1, b1⟩ := p
    by_cases hp : a1 = k
    · have h2 : (t == k) = false := by simp [h]
      simp [List.lookup_cons, hp, h2, ih]
    · simp [List.lookup_cons, hp, ih]

theorem lookup_mapSet_ne (m : List (String × TaskStatus)) (k t : String) (v : TaskStatus)
    (h : t ≠ k) :
    List.lookup t (mapSet m k v) = List.lookup t m := by
  unfold mapSet
  split
  · exact lookup_replace_ne m k t v h
  · rw [List.lookup_append]
    have hbe : (t == k) = false := by simp [h]
    have h1 : List.lookup t [(k, v)] = none := by simp [List.lookup_cons, hbe]
    rw [h1, Option.or_none]

theorem lookup_mapDelete_self (m : List (String × TaskStatus)) (t : String) :
    List.lookup t (mapDelete m t) = none := by
  simp only [mapDelete, List.lookup_eq_none_iff, List.mem_filter]
  intro p hp
  have := hp.2
  simp only [bne_iff_ne, ne_eq] at this
  simp [bne_iff_ne, Ne.symm this]

theorem lookup_mapDelete_none (m : List (String × TaskStatus)) (k t : String)
    (h : List.lookup t m = none) :
    List.lookup t (mapDelete m k) = none := by
  rw [List.lookup_eq_none_iff] at h ⊢
  intro p hp
  exact h p (List.mem_filter.mp hp).1

theorem observedActive_none_step (t : String) (a : AppAction) (s : AppState)
    (ha : targetsTask a t = false) (h : observedActive s t = none) :
    observedActive (appReducer s a) t = none := by
  have h' : List.lookup t s.activeTasks = none := by
    unfold observedActive at h
    cases hx : List.lookup t s.activeTasks with
    | none => rfl
    | some v => rw [hx] at h; simp at h
  cases a with
  | ADD_TASK p =>
      have hne : t ≠ p.task_id := by
        simp only [targetsTask, beq_eq_false_iff_ne, ne_eq] at ha
        exact fun he => ha he.symm
      simp only [appReducer, observedActive]
      rw [lookup_mapSet_ne _ _ _ _ hne, h']
      rfl
  | UPDATE_TASK p =>
      have hne : t ≠ p.task_id := by
        simp only [targetsTask, beq_eq_false_iff_ne, ne_eq] at ha
        exact fun he => ha he.symm
      simp only [appReducer, observedActive]
      split
      · rw [lookup_mapDelete_none _ _ _ (by rw [lookup_mapSet_ne _ _ _ _ hne]; exact h')]
        rfl
      · rw [lookup_mapSet_ne _ _ _ _ hne, h']
        rfl
  | REMOVE_TASK id =>
      simp only [appReducer, observedActive]
      rw [lookup_mapDelete_none _ _ _ h']
      rfl
  | CLEAR_COMPLETED_TASKS => exact h
  | ADD_NOTIFICATION id ts ntype title message => exact h
  | MARK_NOTIFICATION_READ id => exact h
  | CLEAR_NOTIFICATIONS => exact h

theorem observedActive_none_apply (post : List AppAction) (t : String) : ∀ s : AppState,
    (∀ a ∈ post, targetsTask a t = false) → observedActive s t = none →
    observedActive (applyActions s post) t = none := by
  induction post with
  | nil => exact fun _ _ h => h
  | cons a rest ih =>
      intro s hpost h
      exact ih (appReducer s a) (fun b hb => hpost b (List.mem_cons_of_mem a hb))
        (observedActive_none_step t a s (hpost a (List.mem_cons_self a rest)) h)

theorem boundsPreserved (a : AppAction) (s : AppState)
    (h1 : s.taskHistory.length ≤ 50) (h2 : s.notifications.length ≤ 100) :
    (appReducer s a).taskHistory.length ≤ 50 ∧ (appReducer s a).notifications.length ≤ 100 := by
  cases a with
  | ADD_TASK p => exact ⟨h1, h2⟩
  | UPDATE_TASK p =>
      simp only [appReducer]
      split
      · refine ⟨?_, h2⟩
        simp only [List.length_cons, List.length_take]
        omega
      · exact ⟨h1, h2⟩
  | REMOVE_TASK id => exact ⟨h1, h2⟩
  | CLEAR_COMPLETED_TASKS => exact ⟨by simp [appReducer], h2⟩
  | ADD_NOTIFICATION id ts ntype title message =>
      refine ⟨h1, ?_⟩
      simp only [appReducer, List.length_cons, List.length_take]
      omega
  | MARK_NOTIFICATION_READ id =>
      refine ⟨h1, ?_⟩
      simpa only [appReducer, List.length_map] using h2
  | CLEAR_NOTIFICATIONS => exact ⟨h1, by simp [appReducer]⟩

theorem applyActions_bounds (acts : List AppAction) : ∀ s : AppState,
    s.taskHistory.length ≤ 50 → s.notifications.length ≤ 100 →
    (applyActions s acts).taskHistory.length ≤ 50 ∧
    (applyActions s acts).notifications.length ≤ 100 := by
  induction acts with
  | nil => exact fun s h1 h2 => ⟨h1, h2⟩
  | cons a rest ih =>
      intro s h1 h2
      have hb := boundsPreserved a s h1 h2
      exact ih (appReducer s a) hb.1 hb.2

/- ===================================================================
   Claim theorems.
   =================================================================== -/

/-- C1 counterexample: the reducer does not enforce the transition graph.
After UPDATE_TASK records the terminal status SUCCESS for job t1 (moving
it into taskHistory), a further UPDATE_TASK reporting PENDING re-inserts
t1 into activeTasks, so the job is observed as PENDING after having been
recorded terminal — the claimed invariant fails on this two-action
sequence. -/
theorem C1_pending_observed_after_terminal :
    recordedTerminal (applyActions initialState
      [AppAction.UPDATE_TASK { task_id := "t1", status := "SUCCESS" }]) "t1" = true ∧
    observedActive (applyActions initialState
      [AppAction.UPDATE_TASK { task_id := "t1", status := "SUCCESS" },
       AppAction.UPDATE_TASK { task_id := "t1", status := "PENDING" }]) "t1"
      = some "PENDING" := by
  exact ⟨rfl, rfl⟩

/-- C1 (amended): the reducer stores reported statuses verbatim and adds
no transition-graph violations of its own — a terminal UPDATE_TASK
removes the job from activeTasks, and as long as no later ADD_TASK or
UPDATE_TASK action carries that job's id (which is how the polling loops
behave, since they stop on terminal statuses), the job is never again
observed as PENDING or RUNNING. -/
theorem C1_terminal_not_reobserved (s : AppState) (p : TaskStatus) (post : List AppAction)
    (hterm : p.status = "SUCCESS" ∨ p.status = "FAILURE")
    (hpost : ∀ a ∈ post, targetsTask a p.task_id = false) :
    observedActive (applyActions s (AppAction.UPDATE_TASK p :: post)) p.task_id = none := by
  have h0 : observedActive (appReducer s (AppAction.UPDATE_TASK p)) p.task_id = none := by
    simp only [appReducer, observedActive]
    rw [if_pos hterm]
    rw [lookup_mapDelete_self]
    rfl
  exact observedActive_none_apply post p.task_id (appReducer s (AppAction.UPDATE_TASK p))
    hpost h0

/-- C1 witness: after a terminal update for t1 followed by an unrelated
ADD_TASK for t2, job t1 is no longer observed in the active map. -/
theorem C1_terminal_not_reobserved_witness :
    observedActive (applyActions initialState
      [AppAction.UPDATE_TASK { task_id := "t1", status := "SUCCESS" },
       AppAction.ADD_TASK { task_id := "t2", status := "PENDING" }]) "t1" = none :=
  C1_terminal_not_reobserved initialState { task_id := "t1", status := "SUCCESS" }
    [AppAction.ADD_TASK { task_id := "t2", status := "PENDING" }]
    (Or.inl rfl) (by decide)

/-- C3 counterexample: finalization through the reducer is not
first-write-wins. Applying UPDATE_TASK a second time with a different
terminal outcome prepends a second history entry: the stored (most
recent) outcome for t1 becomes FAILURE, the second write, and both
entries remain in taskHistory — the second attempt is not a no-op on the
stored result. -/
theorem C3_second_finalize_not_noop :
    storedOutcome (applyActions initialState
      [AppAction.UPDATE_TASK { task_id := "t1", status := "SUCCESS" },
       AppAction.UPDATE_TASK { task_id := "t1", status := "FAILURE" }]) "t1"
      = some "FAILURE" ∧
    (applyActions initialState
      [AppAction.UPDATE_TASK { task_id := "t1", status := "SUCCESS" },
       AppAction.UPDATE_TASK { task_id := "t1", status := "FAILURE" }]).taskHistory
      = [{ task_id := "t1", status := "FAILURE" }, { task_id := "t1", status := "SUCCESS" }] := by
  exact ⟨rfl, rfl⟩

/-- C3 (amended): a second terminal update for the same job is accepted
without error and leaves the job absent from activeTasks, but it prepends
a second history entry rather than being a no-op: both outcomes are
recorded and the most recent (second) one is the stored outcome — the
last terminal write wins in the retained history, not the first. -/
theorem C3_last_terminal_write_wins (s : AppState) (p q : TaskStatus)
    (hpq : q.task_id = p.task_id)
    (hp : p.status = "SUCCESS" ∨ p.status = "FAILURE")
    (hq : q.status = "SUCCESS" ∨ q.status = "FAILURE") :
    observedActive (applyActions s [AppAction.UPDATE_TASK p, AppAction.UPDATE_TASK q])
      p.task_id = none ∧
    (applyActions s [AppAction.UPDATE_TASK p, AppAction.UPDATE_TASK q]).taskHistory
      = q :: (p :: s.taskHistory.take 49).take 49 ∧
    storedOutcome (applyActions s [AppAction.UPDATE_TASK p, AppAction.UPDATE_TASK q])
      p.task_id = some q.status := by
  have s1 : appReducer s (AppAction.UPDATE_TASK p)
      = { s with activeTasks := mapDelete (mapSet s.activeTasks p.task_id p) p.task_id,
                 taskHistory := p :: s.taskHistory.take 49 } := by
    simp only [appReducer]
    rw [if_pos hp]
  have e : applyActions s [AppAction.UPDATE_TASK p, AppAction.UPDATE_TASK q]
      = appReducer (appReducer s (AppAction.UPDATE_TASK p)) (AppAction.UPDATE_TASK q) := rfl
  rw [e, s1]
  simp only [appReducer]
  rw [if_pos hq]
  refine ⟨?_, rfl, ?_⟩
  · simp only [observedActive]
    rw [hpq, lookup_mapDelete_self]
    rfl
  · simp only [storedOutcome, List.find?]
    have : (q.task_id == p.task_id) = true := by simp [hpq]
    simp [this]

/-- C3 witness: two concrete terminal updates for job t9 — SUCCESS then
FAILURE — leave t9 out of activeTasks, store both entries, and retain
FAILURE as the visible outcome. -/
theorem C3_last_terminal_write_wins_witness :
    observedActive (applyActions initialState
      [AppAction.UPDATE_TASK { task_id := "t9", status := "SUCCESS" },
       AppAction.UPDATE_TASK { task_id := "t9", status := "FAILURE" }]) "t9" = none ∧
    (applyActions initialState
      [AppAction.UPDATE_TASK { task_id := "t9", status := "SUCCESS" },
       AppAction.UPDATE_TASK { task_id := "t9", status := "FAILURE" }]).taskHistory
      = [{ task_id := "t9", status := "FAILURE" }, { task_id := "t9", status := "SUCCESS" }] ∧
    storedOutcome (applyActions initialState
      [AppAction.UPDATE_TASK { task_id := "t9", status := "SUCCESS" },
       AppAction.UPDATE_TASK { task_id := "t9", status := "FAILURE" }]) "t9"
      = some "FAILURE" :=
  C3_last_terminal_write_wins initialState
    { task_id := "t9", status := "SUCCESS" } { task_id := "t9", status := "FAILURE" }
    rfl (Or.inl rfl) (Or.inr rfl)

/-- C9: in every state reachable from the initial state by any sequence
of reducer actions, the retained task history holds at most 50 entries
and the notification list at most 100 — UPDATE_TASK prepends to
taskHistory.slice(0, 49) and ADD_NOTIFICATION to
notifications.slice(0, 99), and no other action grows either list. -/
theorem C9_state_bounded (acts : List AppAction) :
    (applyActions initialState acts).taskHistory.length ≤ 50 ∧
    (applyActions initialState acts).notifications.length ≤ 100 :=
  applyActions_bounds acts initialState (by simp [initialState]) (by simp [initialState])

/-- C2 counterexample: ApiService.streamTaskUpdates does not stop on every
terminal status — on REVOKED (the status a cancelled task reports) the
interval is not cleared and polling continues, although REVOKED is
neither PENDING nor STARTED and is terminal. -/
theorem C2_stream_continues_on_revoked :
    streamContinues (some { task_id := "t1", status := "REVOKED" }) = true ∧
    isTerminalStatus "REVOKED" = true ∧
    ("REVOKED" ≠ "PENDING" ∧ "REVOKED" ≠ "STARTED") := by
  exact ⟨rfl, rfl, by decide⟩

/-- C2 (amended): the hook-level polling loops (useGenerateResponse and
useAnalyzeEmail) re-poll exactly while the reported status is PENDING or
STARTED and stop on every other status and on a poll error; the
streamTaskUpdates fallback, however, stops exactly on SUCCESS, FAILURE,
or a poll error, and keeps polling on any other reported status
(including REVOKED). -/
theorem C2_polling_characterization (r : Option TaskStatus) :
    ((generatePollIteration r).continues = true ↔
      ∃ p, r = some p ∧ (p.status = "PENDING" ∨ p.status = "STARTED")) ∧
    ((analyzePollIteration r).continues = true ↔
      ∃ p, r = some p ∧ (p.status = "PENDING" ∨ p.status = "STARTED")) ∧
    (streamContinues r = true ↔
      ∃ p, r = some p ∧ p.status ≠ "SUCCESS" ∧ p.status ≠ "FAILURE") := by
  refine ⟨?_, ?_, ?_⟩
  · cases r with
    | none => simp [generatePollIteration]
    | some p =>
        simp only [generatePollIteration]
        split
        · simp_all
        · split
          · simp_all
          · split <;> simp_all
  · cases r with
    | none => simp [analyzePollIteration]
    | some p =>
        simp only [analyzePollIteration]
        split
        · simp_all
        · split <;> simp_all
  · cases r with
    | none => simp [streamContinues]
    | some p => simp [streamContinues]

/-- C7 counterexample: the polling/notification path can terminate
silently. When getTaskStatus throws (the catch branch: network error or
NotFound) the loop stops with no notification, and likewise on a status
outside the handled set such as REVOKED — neither a draft nor a
classified failure is delivered. -/
theorem C7_silent_termination :
    (generatePollIteration none).continues = false ∧
    (generatePollIteration none).notices = [] ∧
    (generatePollIteration (some { task_id := "t1", status := "REVOKED" })).continues = false ∧
    (generatePollIteration (some { task_id := "t1", status := "REVOKED" })).notices = [] := by
  exact ⟨rfl, rfl, rfl, rfl⟩

/-- C7 (amended): a stopped poll iteration delivers a notification exactly
when the observed status is SUCCESS (success notices) or FAILURE (failure
notices carrying the error); on a poll error or any other status the loop
stops silently, with neither outcome surfaced to the caller. -/
theorem C7_notification_characterization (r : Option TaskStatus) :
    ((generatePollIteration r).continues = false ∧ (generatePollIteration r).notices ≠ []) ↔
      (∃ p, r = some p ∧ (p.status = "SUCCESS" ∨ p.status = "FAILURE")) := by
  cases r with
  | none => simp [generatePollIteration]
  | some p =>
      simp only [generatePollIteration, updateTaskStatusNotices]
      split
      · simp_all
      · split
        · rename_i hS hPS
          rcases hPS with h | h <;> simp [h]
        · split <;> simp_all

/-- C5 counterexample: the client data model does not guarantee a present
confidence score or an enumerated strategy — GeneratedResponse admits
confidence_score null (number | null in api.ts), and response_type is an
unconstrained string: the value 'professional', which Dashboard.tsx
itself branches on, is none of the four strategy kinds; the dashboard
renders the missing score as 0. -/
theorem C5_null_confidence_admitted :
    nullConfidenceResponse.confidence_score = none ∧
    nullConfidenceResponse.response_type ∉ strategyKinds ∧
    dashboardConfidencePct nullConfidenceResponse = 0 := by
  refine ⟨rfl, by decide, ?_⟩
  show jsRound ((0 : ℚ) * 100) = 0
  simp [jsRound]
  norm_num [Int.floor_eq_zero_iff]

/-- C5 (amended): confidence_score is nullable in the client model and
callers guard it — the Dashboard badge computes
Math.round((confidence_score || 0) * 100), so whenever the score is
absent or lies in [0, 1] the displayed percentage is a well-defined value
in [0, 100], with a missing score shown as 0. -/
theorem C5_rendered_confidence_bounded (r : GeneratedResponse)
    (h : r.confidence_score = none ∨ ∃ c, r.confidence_score = some c ∧ 0 ≤ c ∧ c ≤ 1) :
    0 ≤ dashboardConfidencePct r ∧ dashboardConfidencePct r ≤ 100 := by
  rcases h with h | ⟨c, hc, hc0, hc1⟩
  · simp only [dashboardConfidencePct, h, Option.getD_none]
    constructor
    · exact Int.le_floor.mpr (by norm_num)
    · have : ((0 : ℚ) * 100 + 1 / 2) < (101 : ℤ) := by norm_num
      have hlt := Int.floor_lt.mpr this
      simp only [jsRound]
      omega
  · simp only [dashboardConfidencePct, hc, Option.getD_some, jsRound]
    constructor
    · exact Int.le_floor.mpr (by push_cast; linarith)
    · have hlt : c * 100 + 1 / 2 < ((101 : ℤ) : ℚ) := by push_cast; linarith
      have := Int.floor_lt.mpr hlt
      omega

/-- C5 witness: the rendered confidence of the null-score response lies
in [0, 100]. -/
theorem C5_rendered_confidence_bounded_witness :
    0 ≤ dashboardConfidencePct nullConfidenceResponse ∧
    dashboardConfidencePct nullConfidenceResponse ≤ 100 :=
  C5_rendered_confidence_bounded nullConfidenceResponse (Or.inl rfl)

theorem foldl_add_strength (l : List Client) (init : ℚ) :
    l.foldl (fun sum c => sum + c.relationship_strength.getD 0) init
      = init + (l.map (fun c => c.relationship_strength.getD 0)).sum := by
  induction l generalizing init with
  | nil => simp
  | cons c t ih =>
      simp only [List.foldl_cons, List.map_cons, List.sum_cons, ih]
      ring

/-- C10: useClientStats is total — on the empty client list it returns
the all-zero record (no division by zero occurs thanks to the early
return), and on every non-empty list the averageRelationshipStrength
field is the mean of the relationship_strength values with null treated
as 0, rounded to two decimal places via Math.round(x * 100) / 100. -/
theorem C10_clientStats_total (now : ℤ) (parseDate : String → ℤ) (clients : List Client)
    (h : clients ≠ []) :
    useClientStats now parseDate []
      = { totalClients := 0, activeClients := 0, highPriorityClients := 0,
          averageRelationshipStrength := 0, topBusinessCategories := [],
          recentInteractions := 0 } ∧
    (useClientStats now parseDate clients).averageRelationshipStrength
      = jsRound2 ((clients.map (fun c => c.relationship_strength.getD 0)).sum
          / (clients.length : ℚ)) := by
  constructor
  · rfl
  · have hne : clients.isEmpty = false := by
      cases clients with
      | nil => exact absurd rfl h
      | cons c t => rfl
    simp only [useClientStats, hne, Bool.false_eq_true, if_false]
    rw [foldl_add_strength]
    norm_num

/-- C10 witness: on the two concrete demo clients (strengths 4/5 and
null) the average is computed as specified. -/
theorem C10_clientStats_total_witness :
    demoClients ≠ [] ∧
    (useClientStats 0 (fun _ => 0) demoClients).averageRelationshipStrength
      = jsRound2 ((demoClients.map (fun c => c.relationship_strength.getD 0)).sum
          / (demoClients.length : ℚ)) :=
  ⟨by decide, (C10_clientStats_total 0 (fun _ => 0) demoClients (by decide)).2⟩

theorem generateDraft_nonempty (req : GenerationRequest) (retrieval : Option (List Passage))
    (rules : List ResponseRule) (profile : Option StyleProfile) :
    (generateDraft req retrieval rules profile).text ≠ "" := by
  cases hfind : List.find? (fun d => qualityOk d && decide (acceptanceThreshold ≤ d.confidence))
      ([ragAttempt req retrieval profile, ruleAttempt req rules,
        hybridAttempt req retrieval rules profile].filterMap id) with
  | none =>
      simp only [generateDraft, hfind]
      decide
  | some d =>
      simp only [generateDraft, hfind]
      have hp := List.find?_some hfind
      have hq : qualityOk d = true := ((Bool.and_eq_true _ _).mp hp).1
      have hne : (d.text != "") = true :=
        (((Bool.and_eq_true _ _).mp (((Bool.and_eq_true _ _).mp hq).1)).1)
      exact bne_iff_ne.mp hne

/-- C4 (spec-modelled engine): for every valid GenerationRequest — one
with a non-empty message body — the generate-response operation returns a
non-empty GeneratedDraft, and the worker wrapper records a terminal
(SUCCEEDED) job carrying it; the Template fallback guarantees this even
when retrieval is unavailable and no rule matches. -/
theorem C4_generation_total (req : GenerationRequest) (retrieval : Option (List Passage))
    (rules : List ResponseRule) (profile : Option StyleProfile) (h : req.body ≠ "") :
    ∃ d : GeneratedDraft,
      generateResponse req retrieval rules profile = Except.ok d ∧ d.text ≠ "" ∧
      (workerExecute req retrieval rules profile).state.isTerminal = true ∧
      (workerExecute req retrieval rules profile).result = some d := by
  have hgen : generateResponse req retrieval rules profile
      = Except.ok (generateDraft req retrieval rules profile) := by
    simp [generateResponse, h]
  refine ⟨generateDraft req retrieval rules profile, hgen,
    generateDraft_nonempty req retrieval rules profile, ?_, ?_⟩
  · simp [workerExecute, hgen, JobState.isTerminal]
  · simp [workerExecute, hgen]

/-- C4 witness: the concrete demo request, with retrieval unavailable and
an empty rule set, still produces a terminal job with a draft. -/
theorem C4_generation_total_witness :
    demoRequest.body ≠ "" ∧
    (workerExecute demoRequest none [] none).state.isTerminal = true ∧
    (workerExecute demoRequest none [] none).result.isSome = true := by
  have h := C4_generation_total demoRequest none [] none (by decide)
  obtain ⟨d, h1, h2, h3, h4⟩ := h
  exact ⟨by decide, h3, by rw [h4]; rfl⟩

theorem jobInvariantStep (j : Job) (op : JobOp)
    (h1 : j.cancelRequested = true)
    (h2 : j.state = JobState.RUNNING ∨ j.state = JobState.CANCELLED) :
    (jobStep j op).cancelRequested = true ∧
    ((jobStep j op).state = JobState.RUNNING ∨ (jobStep j op).state = JobState.CANCELLED) := by
  cases op with
  | cancel =>
      rcases h2 with h2 | h2 <;>
        simp [jobStep, jobCancel, h1, h2, JobState.isTerminal]
  | start =>
      rcases h2 with h2 | h2 <;>
        simp [jobStep, jobStart, h1, h2]
  | finish success res err =>
      rcases h2 with h2 | h2 <;>
        simp [jobStep, jobFinish, jobFinalize, h1, h2, JobState.isTerminal]
  | poll => exact ⟨h1, h2⟩

theorem jobInvariantApply (ops : List JobOp) : ∀ j : Job,
    j.cancelRequested = true →
    (j.state = JobState.RUNNING ∨ j.state = JobState.CANCELLED) →
    (applyJobOps j ops).cancelRequested = true ∧
    ((applyJobOps j ops).state = JobState.RUNNING ∨
     (applyJobOps j ops).state = JobState.CANCELLED) := by
  induction ops with
  | nil => exact fun j h1 h2 => ⟨h1, h2⟩
  | cons a rest ih =>
      intro j h1 h2
      have hs := jobInvariantStep j a h1 h2
      exact ih (jobStep j a) hs.1 hs.2

theorem cancelledStable (ops : List JobOp) : ∀ j : Job,
    j.cancelRequested = true → j.state = JobState.CANCELLED →
    (applyJobOps j ops).cancelRequested = true ∧
    (applyJobOps j ops).state = JobState.CANCELLED := by
  induction ops with
  | nil => exact fun j h1 h2 => ⟨h1, h2⟩
  | cons a rest ih =>
      intro j h1 h2
      have hs : (jobStep j a).cancelRequested = true ∧
          (jobStep j a).state = JobState.CANCELLED := by
        cases a with
        | cancel => simp [jobStep, jobCancel, h1, h2, JobState.isTerminal]
        | start => simp [jobStep, jobStart, h1, h2]
        | finish success res err =>
            simp [jobStep, jobFinish, jobFinalize, h1, h2, JobState.isTerminal]
        | poll => exact ⟨h1, h2⟩
      exact ih (jobStep j a) hs.1 hs.2

theorem finishGivesCancelled (ops : List JobOp) : ∀ j : Job,
    j.cancelRequested = true →
    (j.state = JobState.RUNNING ∨ j.state = JobState.CANCELLED) →
    (∃ b res err, JobOp.finish b res err ∈ ops) →
    (applyJobOps j ops).state = JobState.CANCELLED := by
  induction ops with
  | nil =>
      rintro j _ _ ⟨b, res, err, hmem⟩
      exact absurd hmem (List.not_mem_nil _)
  | cons a rest ih =>
      rintro j h1 h2 ⟨b, res, err, hmem⟩
      rcases List.mem_cons.mp hmem with heq | hmem'
      · subst heq
        have hs : (jobStep j (JobOp.finish b res err)).cancelRequested = true ∧
            (jobStep j (JobOp.finish b res err)).state = JobState.CANCELLED := by
          rcases h2 with h2 | h2 <;>
            simp [jobStep, jobFinish, jobFinalize, h1, h2, JobState.isTerminal]
        exact (cancelledStable rest _ hs.1 hs.2).2
      · have hs := jobInvariantStep j a h1 h2
        exact ih (jobStep j a) hs.1 hs.2 ⟨b, res, err, hmem'⟩

/-- C6 (spec-modelled registry): if Cancel is accepted while a job is
RUNNING then, under every subsequent sequence of operations, every poll
of the job reports CANCELLED — never RUNNING, never SUCCEEDED — already
in the window before the cooperative worker has aborted; the job's state
is never SUCCEEDED, any terminal state it reaches is CANCELLED, and once
the worker completes — whatever result it produced — the state is
CANCELLED: partial results are discarded. -/
theorem C6_cancel_wins (j : Job) (ops : List JobOp) (h : j.state = JobState.RUNNING) :
    getStatus (applyJobOps (jobCancel j) ops) = JobState.CANCELLED ∧
    (applyJobOps (jobCancel j) ops).state ≠ JobState.SUCCEEDED ∧
    ((applyJobOps (jobCancel j) ops).state.isTerminal = true →
      (applyJobOps (jobCancel j) ops).state = JobState.CANCELLED) ∧
    (∀ b res err, JobOp.finish b res err ∈ ops →
      (applyJobOps (jobCancel j) ops).state = JobState.CANCELLED) := by
  have hc1 : (jobCancel j).cancelRequested = true := by
    simp [jobCancel, h, JobState.isTerminal]
  have hc2 : (jobCancel j).state = JobState.RUNNING ∨
      (jobCancel j).state = JobState.CANCELLED := by
    left
    simp [jobCancel, h, JobState.isTerminal]
  have hfin := jobInvariantApply ops (jobCancel j) hc1 hc2
  refine ⟨?_, ?_, ?_, ?_⟩
  · rcases hfin.2 with h2 | h2 <;>
      simp [getStatus, hfin.1, h2, JobState.isTerminal]
  · rcases hfin.2 with h2 | h2 <;> simp [h2]
  · intro ht
    rcases hfin.2 with h2 | h2
    · rw [h2] at ht
      simp [JobState.isTerminal] at ht
    · exact h2
  · intro b res err hmem
    exact finishGivesCancelled ops (jobCancel j) hc1 hc2 ⟨b, res, err, hmem⟩

/-- C6 witness: a poll issued immediately after the accepted cancel —
while the worker is still running — already reports CANCELLED, and after
the worker finishes with a successful result the state is CANCELLED: the
produced draft is discarded. -/
theorem C6_cancel_wins_witness :
    getStatus (applyJobOps (jobCancel demoRunning) [JobOp.poll]) = JobState.CANCELLED ∧
    (applyJobOps (jobCancel demoRunning)
      [JobOp.finish true (some templateDraft) none, JobOp.poll]).state
      = JobState.CANCELLED :=
  ⟨(C6_cancel_wins demoRunning [JobOp.poll] rfl).1,
   (C6_cancel_wins demoRunning [JobOp.finish true (some templateDraft) none, JobOp.poll]
     rfl).2.2.2 true (some templateDraft) none (List.mem_cons_self _ _)⟩

theorem lookup_jobs_append_self (l : List (Nat × Job)) (k : Nat) (v : Job)
    (h : List.lookup k l = none) : List.lookup k (l ++ [(k, v)]) = some v := by
  rw [List.lookup_append, h]
  simp

theorem lookup_jobs_append_ne (l : List (Nat × Job)) (k i : Nat) (v : Job) (h : i ≠ k) :
    List.lookup i (l ++ [(k, v)]) = List.lookup i l := by
  rw [List.lookup_append]
  have hbe : (i == k) = false := by simp [h]
  have h1 : List.lookup i [(k, v)] = none := by simp [List.lookup_cons, hbe]
  rw [h1, Option.or_none]

/-- C8 (spec-modelled registry; polling order from useGenerateResponse):
Submit with a well-formed payload returns the fresh job id with the job
registered as PENDING — not started, not terminal, with no result, and
with no other job touched — i.e. it does not block on or perform any of
the job's execution; and in the submit-then-poll workflow every poll
event for the returned id comes strictly after the submit return, since
the polling loop is scheduled by the mutation's onSuccess callback from
the returned task id. -/
theorem C8_submit_nonblocking (r : Registry) (k : JobKind) (n : Nat)
    (hfresh : List.lookup r.nextId r.jobs = none) :
    submit r k true = Except.ok
      ({ jobs := r.jobs ++ [(r.nextId, newJob k)], nextId := r.nextId + 1 }, r.nextId) ∧
    List.lookup r.nextId (r.jobs ++ [(r.nextId, newJob k)]) = some (newJob k) ∧
    (newJob k).state = JobState.PENDING ∧
    (newJob k).state.isTerminal = false ∧
    (newJob k).result = none ∧
    (∀ i, i ≠ r.nextId → List.lookup i (r.jobs ++ [(r.nextId, newJob k)]) = List.lookup i r.jobs) ∧
    generateWorkflow r k n = PollEv.submitReturn r.nextId :: pollPhase r.nextId n ∧
    (∀ e ∈ pollPhase r.nextId n, e = PollEv.poll r.nextId) := by
  refine ⟨rfl, lookup_jobs_append_self _ _ _ hfresh, rfl, rfl, rfl, ?_, ?_, ?_⟩
  · intro i hi
    exact lookup_jobs_append_ne _ _ _ _ hi
  · rfl
  · intro e he
    exact List.eq_of_mem_replicate he

/-- C8 witness: submitting to the empty registry yields the
submit-return-then-poll workflow for id 0. -/
theorem C8_submit_nonblocking_witness :
    List.lookup 0 ([] : List (Nat × Job)) = none ∧
    generateWorkflow { jobs := [], nextId := 0 } JobKind.GenerateResponse 3
      = PollEv.submitReturn 0 :: pollPhase 0 3 := by
  have h := C8_submit_nonblocking { jobs := [], nextId := 0 } JobKind.GenerateResponse 3 rfl
  exact ⟨rfl, h.2.2.2.2.2.2.1⟩
